import Mathlib

/-!
Shallow embedding of the `monitor` system-resource dashboard (Rust sources
`src/hardware.rs` and `src/main.rs`).

Modelling conventions:
* `f64` values are modelled as `ℚ` (exact rational arithmetic standing in for
  the binary floating-point arithmetic of the source); `u64`/`u32`/`usize`
  counters are modelled as `ℕ`.
* Calls into the operating system, NVML and the `/sys` filesystem are modelled
  as oracle parameters: a structure holding the value (or error) each external
  call would return on this tick.  A Rust `Result` becomes `Except String`,
  an `Option` stays `Option`.
* Rust `Vec::push` is `· ++ [x]` and `Vec::remove(0)` is `List.drop 1`, so
  insertion order is preserved exactly.
* Display-only string formatting (`format_size`, arrows, colours of spans) is
  not re-implemented character by character; where a claim depends on what the
  renderer shows, the embedding keeps the structural content (which sections
  appear, which numeric value is printed) and drops only the cosmetic text.
-/

/-- `tui::style::Color` variants used by the program (`main.rs`, `hardware.rs`). -/
inductive Color where
  | Cyan | Yellow | Green | Magenta | White | Blue | Gray
  | LightRed | LightBlue | LightCyan
  deriving DecidableEq, Repr

/-- `GpuType` from `hardware.rs` lines 11-17. -/
inductive GpuType where
  | Nvidia | Amd | Intel | Unknown
  deriving DecidableEq, Repr

/-- `SystemInfo` from `hardware.rs` lines 19-27. -/
structure SystemInfo where
  cpu_model : String
  cpu_cores : Nat
  cpu_threads : Nat
  gpu_model : String
  os_name : String
  os_version : String
  deriving DecidableEq, Repr

/-- Equality of `Except` outcomes is decidable componentwise (needed so the
claim witnesses can be checked by evaluation). -/
instance {ε α : Type} [DecidableEq ε] [DecidableEq α] : DecidableEq (Except ε α) := fun x y =>
  match x, y with
  | .error a, .error b =>
    if h : a = b then .isTrue (by rw [h]) else .isFalse (by intro hc; cases hc; exact h rfl)
  | .error _, .ok _ => .isFalse (by intro hc; cases hc)
  | .ok _, .error _ => .isFalse (by intro hc; cases hc)
  | .ok a, .ok b =>
    if h : a = b then .isTrue (by rw [h]) else .isFalse (by intro hc; cases hc; exact h rfl)

/-- Oracle for the NVML probe made by `detect_gpu` (`hardware.rs` lines 82-87,
Linux build): whether `Nvml::init()` succeeds, whether `device_by_index(0)`
succeeds, and what `device.name()` returns. -/
structure NvmlProbe where
  init_ok : Bool
  device_ok : Bool
  name : Except String String
  deriving DecidableEq, Repr

/-- Oracle for the AMD sysfs probe made by `detect_gpu` (`hardware.rs` lines
89-95): the outcomes of `read_to_string` on the vendor file and on the
product-name file. -/
structure AmdProbe where
  vendor : Except String String
  product_name : Except String String
  deriving DecidableEq, Repr

/-- `detect_gpu` from `hardware.rs` lines 80-98 (the `target_os = "linux"`
build, which is the platform this development models): try NVML first — if
both `Nvml::init()` and `device_by_index(0)` succeed, return Nvidia with the
device name, where a failing `device.name()` propagates as an error via `?`;
otherwise read the sysfs vendor file, and if it reads `"0x1002"` (trimmed)
return Amd with the trimmed product name, a failing product-name read again
propagating via `?`; otherwise fall back to `(Unknown, "Unknown GPU")`. -/
def detect_gpu (nv : NvmlProbe) (amd : AmdProbe) : Except String (GpuType × String) :=
  if nv.init_ok && nv.device_ok then
    match nv.name with
    | .ok n => .ok (.Nvidia, n)
    | .error e => .error e
  else
    match amd.vendor with
    | .ok contents =>
      if contents.trim = "0x1002" then
        match amd.product_name with
        | .ok model => .ok (.Amd, model.trim)
        | .error e => .error e
      else .ok (.Unknown, "Unknown GPU")
    | .error _ => .ok (.Unknown, "Unknown GPU")

/-- The `cfg!(target_os = ...)` chain of `SystemInfo::new`
(`hardware.rs` lines 39-47). -/
def osNameFor (isLinux isMacos isWindows : Bool) : String :=
  if isLinux then "Linux"
  else if isMacos then "macOS"
  else if isWindows then "Windows"
  else "Unknown"

/-- Oracle for the `sysinfo` calls made by `SystemInfo::new`
(`hardware.rs` lines 30-61): CPU brand, physical core count, logical CPU
count, and the two OS-version queries. -/
structure CpuInfoReading where
  brand : String
  physical_core_count : Option Nat
  cpus_len : Nat
  long_os_version : Option String
  os_version : Option String
  deriving DecidableEq, Repr

/-- `SystemInfo::new` from `hardware.rs` lines 30-61: builds the static
descriptor; a `detect_gpu` error propagates via `?` (line 37) and makes the
whole constructor fail. -/
def SystemInfo.new (cpu : CpuInfoReading) (osName : String)
    (nv : NvmlProbe) (amd : AmdProbe) : Except String SystemInfo :=
  match detect_gpu nv amd with
  | .error e => .error e
  | .ok (_, gpu_model) =>
    .ok { cpu_model := cpu.brand
          cpu_cores := cpu.physical_core_count.getD 0
          cpu_threads := cpu.cpus_len
          gpu_model := gpu_model
          os_name := osName
          os_version := cpu.long_os_version.getD (cpu.os_version.getD "Unknown") }

/-- `AppConfig` from `main.rs` lines 60-66. -/
structure AppConfig where
  no_gpu : Bool
  no_network : Bool
  interval : Nat
  history : Nat
  deriving DecidableEq, Repr

/-- `AppConfig::default` from `main.rs` lines 68-77. -/
def AppConfig.default : AppConfig :=
  { no_gpu := false, no_network := false, interval := 50, history := 100 }

/-- `ChartKind` from `main.rs` lines 129-135. -/
inductive ChartKind where
  | Cpu | Memory | Gpu | Swap
  deriving DecidableEq, Repr

/-- `Graph` from `main.rs` lines 137-143; chart points are `(f64, f64)`
pairs, modelled as `ℚ × ℚ`. -/
structure Graph where
  graph_type : ChartKind
  data : List (ℚ × ℚ)
  title : String
  color : Color
  deriving DecidableEq, Repr

/-- `Graph::new` from `main.rs` lines 146-159: picks title and colour from
the kind and seeds the buffer with the single point `(0.0, 0.0)`. -/
def Graph.new (graph_type : ChartKind) : Graph :=
  let tc : String × Color :=
    match graph_type with
    | .Cpu => ("CPU Usage", .Cyan)
    | .Memory => ("Memory Usage", .Yellow)
    | .Gpu => ("GPU Usage", .Green)
    | .Swap => ("SWAP Usage", .Magenta)
  { graph_type := graph_type
    data := [(0, 0)]
    title := tc.1
    color := tc.2 }

/-- One network interface as reported by `sys.networks()` on a tick
(`main.rs` lines 296-312): interface name and the per-tick
`received()` / `transmitted()` byte counts.  The display string the source
formats from these fields (`format_size`, arrows) is kept as the raw fields. -/
structure NetIface where
  name : String
  received : Nat
  transmitted : Nat
  deriving DecidableEq, Repr

/-- Oracle for the `sysinfo::System` queries made on one tick of
`SystemData::update` (`main.rs` lines 251-318): global CPU usage, the five
memory/swap totals, and the refreshed interface list. -/
structure SysReading where
  cpu_usage : ℚ
  total_memory : Nat
  used_memory : Nat
  available_memory : Nat
  total_swap : Nat
  used_swap : Nat
  networks : List NetIface
  deriving DecidableEq, Repr

/-- Oracle for the three NVML device calls made on one tick
(`main.rs` lines 280-288): `utilization_rates().gpu`, `memory_info()`
(used, total) and `temperature(Gpu)`.  Each may fail, and in the source a
failure propagates out of `SystemData::update` via `?`. -/
structure GpuCalls where
  utilization_rates : Except String Nat
  memory_info : Except String (Nat × Nat)
  temperature : Except String Nat
  deriving DecidableEq, Repr

/-- The NVML session as seen by one tick: the outcome of
`nvml.device_by_index(0)` (`main.rs` line 279) — either no device (the
`if let Ok` guard fails) or a device with its three telemetry calls. -/
inductive NvmlSession where
  | noDevice : NvmlSession
  | device : GpuCalls → NvmlSession
  deriving DecidableEq, Repr

/-- `SystemData` from `main.rs` lines 181-205. -/
structure SystemData where
  cpu_data : List (ℚ × ℚ)
  memory_data : List (ℚ × ℚ)
  gpu_data : List (ℚ × ℚ)
  counter : ℚ
  cpu_current : ℚ
  mem_current : ℚ
  gpu_current : ℚ
  gpu_memory : ℚ
  gpu_temp : ℚ
  total_memory : Nat
  used_memory : Nat
  available_memory : Nat
  swap_total : Nat
  swap_used : Nat
  rx_bytes : Nat
  tx_bytes : Nat
  rx_bytes_total : Nat
  tx_bytes_total : Nat
  networks : List NetIface
  config : AppConfig
  system_info : SystemInfo
  graphs : List Graph
  deriving DecidableEq, Repr

/-- The buffer-trimming step every series in the source performs after a
push: `if len > cap { remove(0) }` (`main.rs` lines 175-177, 257-258,
272-273, 282-284). -/
def trimAt (cap : Nat) (l : List (ℚ × ℚ)) : List (ℚ × ℚ) :=
  if l.length > cap then l.drop 1 else l

/-- The value a chart extracts from the passed data, `main.rs` lines 162-173:
the current CPU / memory / GPU scalar, or the swap percentage guarded against
a zero total. -/
def chartValue (k : ChartKind) (d : SystemData) : ℚ :=
  match k with
  | .Cpu => d.cpu_current
  | .Memory => d.mem_current
  | .Gpu => d.gpu_current
  | .Swap =>
    if d.swap_total > 0 then
      ((d.swap_used : ℚ) / (d.swap_total : ℚ)) * 100
    else 0

/-- `Graph::update` from `main.rs` lines 161-178: push `(counter, value)`
onto the buffer, then if the length exceeds `config.history` remove the
single oldest point. -/
def Graph.update (g : Graph) (data : SystemData) : Graph :=
  let value := chartValue g.graph_type data
  { g with data := trimAt data.config.history (g.data ++ [(data.counter, value)]) }

/-- `SystemInfo::new` is fallible in the source (`main.rs` line 218 calls it
with `?`); `SystemData::new` (`main.rs` lines 208-244) is modelled with the
already-constructed `SystemInfo` as a parameter and the fallibility handled
at the call site.  Builds the graph list in push order — CPU, then GPU iff
GPU monitoring is enabled, then Memory, then Swap — and zero-initialises all
scalars, with `counter = 1.0` and each series seeded `[(0.0, 0.0)]`. -/
def SystemData.new (config : AppConfig) (system_info : SystemInfo) : SystemData :=
  let graphs := [Graph.new .Cpu]
    ++ (if !config.no_gpu then [Graph.new .Gpu] else [])
    ++ [Graph.new .Memory, Graph.new .Swap]
  { cpu_data := [(0, 0)]
    memory_data := [(0, 0)]
    gpu_data := [(0, 0)]
    counter := 1
    cpu_current := 0
    mem_current := 0
    gpu_current := 0
    gpu_memory := 0
    gpu_temp := 0
    total_memory := 0
    used_memory := 0
    available_memory := 0
    swap_total := 0
    swap_used := 0
    rx_bytes := 0
    tx_bytes := 0
    rx_bytes_total := 0
    tx_bytes_total := 0
    networks := []
    config := config
    system_info := system_info
    graphs := graphs }

/-- CPU section of `SystemData::update`, `main.rs` lines 254-259: store the
raw global CPU usage, append `(counter, cpu_current)` to `cpu_data`, trim at
the hardcoded bound 100. -/
def updateCpu (s : SystemData) (sys : SysReading) : SystemData :=
  let s := { s with cpu_current := sys.cpu_usage }
  { s with cpu_data := trimAt 100 (s.cpu_data ++ [(s.counter, s.cpu_current)]) }

/-- Memory section of `SystemData::update`, `main.rs` lines 261-274: copy
the five scalar totals, smooth `mem_current` with
`mem_current * 0.7 + target * 0.3` where `target` is the used-memory
percentage, append to `memory_data`, trim at the hardcoded bound 100. -/
def updateMemory (s : SystemData) (sys : SysReading) : SystemData :=
  let s := { s with
    total_memory := sys.total_memory
    used_memory := sys.used_memory
    available_memory := sys.available_memory
    swap_total := sys.total_swap
    swap_used := sys.used_swap }
  let target := ((s.used_memory : ℚ) / (s.total_memory : ℚ)) * 100
  let s := { s with mem_current := s.mem_current * (7/10) + target * (3/10) }
  { s with memory_data := trimAt 100 (s.memory_data ++ [(s.counter, s.mem_current)]) }

/-- GPU section of `SystemData::update`, `main.rs` lines 276-291: skipped
when `no_gpu` is set or the NVML session is absent; tolerated when
`device_by_index(0)` fails; otherwise the three telemetry calls run in
order and each failure propagates (the source's `?`), modelled by returning
`some e` together with the state mutated so far.  `gpu_data` is trimmed at
`config.history`. -/
def updateGpu (s : SystemData) (nvml : Option NvmlSession) : SystemData × Option String :=
  if !s.config.no_gpu then
    match nvml with
    | none => (s, none)
    | some .noDevice => (s, none)
    | some (.device d) =>
      match d.utilization_rates with
      | .error e => (s, some e)
      | .ok u =>
        let s := { s with gpu_current := (u : ℚ) }
        let s := { s with gpu_data := trimAt s.config.history (s.gpu_data ++ [(s.counter, s.gpu_current)]) }
        match d.memory_info with
        | .error e => (s, some e)
        | .ok (used, total) =>
          let s := { s with gpu_memory := ((used : ℚ) / (total : ℚ)) * 100 }
          match d.temperature with
          | .error e => (s, some e)
          | .ok t => ({ s with gpu_temp := (t : ℚ) }, none)
  else (s, none)

/-- Network section of `SystemData::update`, `main.rs` lines 293-318:
skipped when `no_network` is set; otherwise sum the per-interface cumulative
counters, rebuild the interface display list, and derive the per-tick deltas
with `saturating_sub` — on `ℕ`, truncated subtraction is exactly `u64`
saturating subtraction (both operands are below `2^64`). -/
def updateNetwork (s : SystemData) (sys : SysReading) : SystemData :=
  if !s.config.no_network then
    let new_rx := sys.networks.foldl (fun acc i => acc + i.received) 0
    let new_tx := sys.networks.foldl (fun acc i => acc + i.transmitted) 0
    { s with
      networks := sys.networks
      rx_bytes := new_rx - s.rx_bytes_total
      tx_bytes := new_tx - s.tx_bytes_total
      rx_bytes_total := new_rx
      tx_bytes_total := new_tx }
  else s

/-- The temporary `update_data` struct built at `main.rs` lines 320-344:
copies counter, the three current scalars, the swap totals and the config;
everything else is zeroed or emptied. -/
def mkUpdateData (s : SystemData) : SystemData :=
  { counter := s.counter
    cpu_current := s.cpu_current
    mem_current := s.mem_current
    gpu_current := s.gpu_current
    swap_total := s.swap_total
    swap_used := s.swap_used
    config := s.config
    cpu_data := []
    memory_data := []
    gpu_data := []
    gpu_memory := 0
    gpu_temp := 0
    total_memory := 0
    used_memory := 0
    available_memory := 0
    rx_bytes := 0
    tx_bytes := 0
    rx_bytes_total := 0
    tx_bytes_total := 0
    networks := []
    system_info := s.system_info
    graphs := [] }

/-- The graph-update loop of `SystemData::update`, `main.rs` lines 346-348:
every chart is updated against the temporary `update_data`. -/
def updateGraphs (s : SystemData) : SystemData :=
  { s with graphs := s.graphs.map (fun g => g.update (mkUpdateData s)) }

/-- `SystemData::update` from `main.rs` lines 246-352.  The Rust method
mutates `self` and returns `Result<(), _>`; the model returns the mutated
state together with `none` on success or `some e` when a GPU telemetry call
failed — in the error case the state already holds the CPU and memory
mutations made before the failing call, exactly as the mutated `self` does,
and the network section, the graph loop and the counter increment are all
skipped (the `?` early return). -/
def SystemData.update (s : SystemData) (sys : SysReading) (nvml : Option NvmlSession) :
    SystemData × Option String :=
  let s1 := updateCpu s sys
  let s2 := updateMemory s1 sys
  match updateGpu s2 nvml with
  | (s3, some e) => (s3, some e)
  | (s3, none) =>
    let s4 := updateNetwork s3 sys
    let s5 := updateGraphs s4
    ({ s5 with counter := s5.counter + 1 }, none)

/-- The NVML initialisation in `main`, `main.rs` lines 622-630: the session
exists only when GPU monitoring is enabled, the platform is not macOS, and
`Nvml::init()` succeeds; an init error degrades to `None`. -/
def initNvml (config : AppConfig) (isMacos : Bool)
    (init : Except String NvmlSession) : Option NvmlSession :=
  if !config.no_gpu && !isMacos then
    match init with
    | .ok n => some n
    | .error _ => none
  else none

/-- The swap usage percentage printed by the stats panel, `main.rs` lines
483-489: the division `swap_used / swap_total` is evaluated only under the
guard `swap_total > 0`, otherwise the printed value is `0.0`. -/
def statsSwapUsagePct (d : SystemData) : ℚ :=
  if d.swap_total > 0 then
    ((d.swap_used : ℚ) / (d.swap_total : ℚ)) * 100
  else 0

/-- The section headers emitted by `draw_stats` (`main.rs` lines 389-598),
in order: CPU, Memory and SWAP always; GPU iff `no_gpu` is unset (line 510);
Network iff `no_network` is unset (line 551). -/
def statsSections (d : SystemData) : List String :=
  ["CPU", "Memory", "SWAP"]
    ++ (if !d.config.no_gpu then ["GPU"] else [])
    ++ (if !d.config.no_network then ["Network"] else [])

/-- The last `n` entries of a list, in order — the expected content of a
FIFO-bounded rolling series. -/
def takeLast {α : Type} (n : Nat) (l : List α) : List α :=
  l.drop (l.length - n)

/-- A sequence of `Graph::update` calls, one per sampling tick, as the graph
loop of `main.rs` line 346-348 performs across the run. -/
def pushSeq (g : Graph) (inputs : List SystemData) : Graph :=
  inputs.foldl Graph.update g

/-- `n` consecutive sampling ticks of the main loop (`main.rs` lines
645-652): each tick calls `SystemData::update` with the same oracle and
keeps the mutated state whether or not the call reported an error. -/
def iterUpdate (sys : SysReading) (nvml : Option NvmlSession) : Nat → SystemData → SystemData
  | 0, s => s
  | n + 1, s => iterUpdate sys nvml n (SystemData.update s sys nvml).1

/-- Ticks recorded in a rolling buffer are pairwise strictly increasing in
insertion order (hence unique) and all lie below the bound `c`. -/
def bufInv (c : ℚ) (l : List (ℚ × ℚ)) : Prop :=
  List.Pairwise (fun a b : ℚ => a < b) (l.map Prod.fst) ∧
  ∀ t ∈ l.map Prod.fst, t < c

/-- All rolling buffers of a `SystemData` — `cpu_data`, `memory_data`,
`gpu_data` and each chart buffer — satisfy `bufInv` with the current
counter as the bound. -/
def SystemData.tickInv (s : SystemData) : Prop :=
  bufInv s.counter s.cpu_data ∧ bufInv s.counter s.memory_data ∧
  bufInv s.counter s.gpu_data ∧ ∀ g ∈ s.graphs, bufInv s.counter g.data

instance (c : ℚ) (l : List (ℚ × ℚ)) : Decidable (bufInv c l) := by
  unfold bufInv; infer_instance

instance (s : SystemData) : Decidable s.tickInv := by
  unfold SystemData.tickInv; infer_instance

/-- Concrete static descriptor used by the example states. -/
def exInfo : SystemInfo :=
  { cpu_model := "cpu", cpu_cores := 4, cpu_threads := 8,
    gpu_model := "gpu", os_name := "Linux", os_version := "1" }

/-- Concrete configuration with GPU and network monitoring enabled and a
given history length. -/
def exConfig (h : Nat) : AppConfig :=
  { no_gpu := false, no_network := false, interval := 50, history := h }

/-- Concrete per-tick system reading: CPU at 10%, memory 80 of 100 used, no
swap, one interface with 500 bytes received and 300 transmitted. -/
def exReading : SysReading :=
  { cpu_usage := 10, total_memory := 100, used_memory := 80, available_memory := 20,
    total_swap := 0, used_swap := 0,
    networks := [{ name := "eth0", received := 500, transmitted := 300 }] }

/-- Concrete oracle for the `sysinfo` queries of `SystemInfo::new`. -/
def exCpuReading : CpuInfoReading :=
  { brand := "cpu", physical_core_count := some 4, cpus_len := 8,
    long_os_version := some "Linux 6.1", os_version := some "6.1" }

/-- Fresh state with the default history of 100. -/
def exData0 : SystemData := SystemData.new (exConfig 100) exInfo

/-- Fresh state whose smoothed memory value has reached 50. -/
def exData50 : SystemData := { exData0 with mem_current := 50 }

/-- Device calls whose utilization read fails with an I/O error, while the
other two calls would succeed. -/
def exGpuFail : GpuCalls :=
  { utilization_rates := .error "io", memory_info := .ok (1, 2), temperature := .ok 30 }

/-- An NVML session whose device exists but whose utilization read fails. -/
def nvFail : Option NvmlSession := some (.device exGpuFail)

/-- Device calls whose utilization read succeeds (42%) but whose
memory-info read fails. -/
def exGpuMemFail : GpuCalls :=
  { utilization_rates := .ok 42, memory_info := .error "mem io", temperature := .ok 30 }

/-- Device calls whose utilization (42%) and memory-info (1 of 2 used)
reads succeed but whose temperature read fails. -/
def exGpuTempFail : GpuCalls :=
  { utilization_rates := .ok 42, memory_info := .ok (1, 2), temperature := .error "temp io" }

/-- An NVML session whose three telemetry calls all succeed, reporting 42%
utilization. -/
def exGpuOk : GpuCalls :=
  { utilization_rates := .ok 42, memory_info := .ok (1, 2), temperature := .ok 30 }

/-- A `SystemData` as passed to `Graph::update`, carrying a tick counter and
a raw CPU value under history length `H`. -/
def mkCpuInput (H : Nat) (t v : ℚ) : SystemData :=
  { SystemData.new (exConfig H) exInfo with counter := t, cpu_current := v }

/-- The end-to-end scenario of the spec: history 5, raw CPU values
10..60 fed at consecutive ticks 1..6. -/
def c1Inputs : List SystemData :=
  [mkCpuInput 5 1 10, mkCpuInput 5 2 20, mkCpuInput 5 3 30,
   mkCpuInput 5 4 40, mkCpuInput 5 5 50, mkCpuInput 5 6 60]

/-- State after one tick whose GPU utilization read failed (the tick aborts
early, counter not advanced). -/
def c9AfterFail : SystemData := (SystemData.update exData0 exReading nvFail).1

/-- State after a further successful tick (device lookup fails, which the
source tolerates). -/
def c9AfterRetry : SystemData :=
  (SystemData.update c9AfterFail exReading (some .noDevice)).1

/-- Reading whose single interface reports a cumulative total of 100 bytes
in each direction. -/
def exReading100 : SysReading :=
  { cpu_usage := 10, total_memory := 100, used_memory := 80, available_memory := 20,
    total_swap := 0, used_swap := 0,
    networks := [{ name := "eth0", received := 100, transmitted := 100 }] }

/-- Reading whose single interface reports a cumulative total of 80 bytes in
each direction — a decrease against `exReading100`, as after a counter
reset. -/
def exReading80 : SysReading :=
  { cpu_usage := 10, total_memory := 100, used_memory := 80, available_memory := 20,
    total_swap := 0, used_swap := 0,
    networks := [{ name := "eth0", received := 80, transmitted := 80 }] }

/-! ### Helper lemmas about the update phases -/

theorem Graph.update_data_eq (g : Graph) (d : SystemData) :
    (g.update d).data =
      trimAt d.config.history (g.data ++ [(d.counter, chartValue g.graph_type d)]) := rfl

theorem Graph.update_type_eq (g : Graph) (d : SystemData) :
    (g.update d).graph_type = g.graph_type := rfl

theorem updateCpu_eq (s : SystemData) (sys : SysReading) :
    updateCpu s sys = { s with
      cpu_current := sys.cpu_usage
      cpu_data := trimAt 100 (s.cpu_data ++ [(s.counter, sys.cpu_usage)]) } := rfl

theorem updateMemory_eq (s : SystemData) (sys : SysReading) :
    updateMemory s sys = { s with
      total_memory := sys.total_memory
      used_memory := sys.used_memory
      available_memory := sys.available_memory
      swap_total := sys.total_swap
      swap_used := sys.used_swap
      mem_current := s.mem_current * (7/10)
        + (((sys.used_memory : ℚ) / (sys.total_memory : ℚ)) * 100) * (3/10)
      memory_data := trimAt 100 (s.memory_data ++ [(s.counter,
        s.mem_current * (7/10)
          + (((sys.used_memory : ℚ) / (sys.total_memory : ℚ)) * 100) * (3/10))]) } := rfl

theorem updateGpu_none_eq (s : SystemData) : updateGpu s none = (s, none) := by
  unfold updateGpu; split <;> rfl

theorem updateGpu_noDevice_eq (s : SystemData) :
    updateGpu s (some .noDevice) = (s, none) := by
  unfold updateGpu; split <;> rfl

theorem updateGpu_shape (s : SystemData) (nv : Option NvmlSession) :
    ∃ gc gd gm gt, (updateGpu s nv).1 =
      { s with gpu_current := gc, gpu_data := gd, gpu_memory := gm, gpu_temp := gt } := by
  unfold updateGpu
  split
  · cases nv with
    | none => exact ⟨_, _, _, _, rfl⟩
    | some sess =>
      cases sess with
      | noDevice => exact ⟨_, _, _, _, rfl⟩
      | device d =>
        rcases hu : d.utilization_rates with e | u <;> simp only [hu]
        · exact ⟨_, _, _, _, rfl⟩
        · rcases hm : d.memory_info with e2 | p <;> simp only [hm]
          · exact ⟨_, _, _, _, rfl⟩
          · obtain ⟨used, total⟩ := p
            rcases ht : d.temperature with e3 | t <;> simp only [ht]
            · exact ⟨_, _, _, _, rfl⟩
            · exact ⟨_, _, _, _, rfl⟩
  · exact ⟨_, _, _, _, rfl⟩

theorem updateGpu_preserves (s : SystemData) (nv : Option NvmlSession) :
    (updateGpu s nv).1.cpu_data = s.cpu_data ∧
    (updateGpu s nv).1.memory_data = s.memory_data ∧
    (updateGpu s nv).1.counter = s.counter ∧
    (updateGpu s nv).1.cpu_current = s.cpu_current ∧
    (updateGpu s nv).1.mem_current = s.mem_current ∧
    (updateGpu s nv).1.config = s.config ∧
    (updateGpu s nv).1.graphs = s.graphs ∧
    (updateGpu s nv).1.networks = s.networks ∧
    (updateGpu s nv).1.rx_bytes = s.rx_bytes ∧
    (updateGpu s nv).1.tx_bytes = s.tx_bytes ∧
    (updateGpu s nv).1.rx_bytes_total = s.rx_bytes_total ∧
    (updateGpu s nv).1.tx_bytes_total = s.tx_bytes_total ∧
    (updateGpu s nv).1.swap_total = s.swap_total ∧
    (updateGpu s nv).1.swap_used = s.swap_used ∧
    (updateGpu s nv).1.system_info = s.system_info := by
  obtain ⟨gc, gd, gm, gt, h⟩ := updateGpu_shape s nv
  rw [h]
  exact ⟨rfl, rfl, rfl, rfl, rfl, rfl, rfl, rfl, rfl, rfl, rfl, rfl, rfl, rfl, rfl⟩

theorem updateNetwork_preserves (s : SystemData) (sys : SysReading) :
    (updateNetwork s sys).cpu_data = s.cpu_data ∧
    (updateNetwork s sys).memory_data = s.memory_data ∧
    (updateNetwork s sys).gpu_data = s.gpu_data ∧
    (updateNetwork s sys).counter = s.counter ∧
    (updateNetwork s sys).cpu_current = s.cpu_current ∧
    (updateNetwork s sys).mem_current = s.mem_current ∧
    (updateNetwork s sys).gpu_current = s.gpu_current ∧
    (updateNetwork s sys).gpu_memory = s.gpu_memory ∧
    (updateNetwork s sys).gpu_temp = s.gpu_temp ∧
    (updateNetwork s sys).config = s.config ∧
    (updateNetwork s sys).graphs = s.graphs ∧
    (updateNetwork s sys).swap_total = s.swap_total ∧
    (updateNetwork s sys).swap_used = s.swap_used ∧
    (updateNetwork s sys).system_info = s.system_info := by
  unfold updateNetwork
  split
  · exact ⟨rfl, rfl, rfl, rfl, rfl, rfl, rfl, rfl, rfl, rfl, rfl, rfl, rfl, rfl⟩
  · exact ⟨rfl, rfl, rfl, rfl, rfl, rfl, rfl, rfl, rfl, rfl, rfl, rfl, rfl, rfl⟩

theorem updateGraphs_graphs_eq (s : SystemData) :
    (updateGraphs s).graphs = s.graphs.map (fun g => g.update (mkUpdateData s)) := rfl

theorem updateGraphs_preserves (s : SystemData) :
    (updateGraphs s).cpu_data = s.cpu_data ∧
    (updateGraphs s).memory_data = s.memory_data ∧
    (updateGraphs s).gpu_data = s.gpu_data ∧
    (updateGraphs s).counter = s.counter ∧
    (updateGraphs s).cpu_current = s.cpu_current ∧
    (updateGraphs s).mem_current = s.mem_current ∧
    (updateGraphs s).gpu_current = s.gpu_current ∧
    (updateGraphs s).config = s.config :=
  ⟨rfl, rfl, rfl, rfl, rfl, rfl, rfl, rfl⟩

theorem updateGpu_util_error_eq {s : SystemData} {d : GpuCalls} {e : String}
    (hng : s.config.no_gpu = false) (hu : d.utilization_rates = Except.error e) :
    updateGpu s (some (.device d)) = (s, some e) := by
  unfold updateGpu
  simp only [hng, Bool.not_false, if_true, hu]

theorem updateGpu_mem_error_eq {s : SystemData} {d : GpuCalls} {e : String} {u : Nat}
    (hng : s.config.no_gpu = false) (hu : d.utilization_rates = Except.ok u)
    (hm : d.memory_info = Except.error e) :
    updateGpu s (some (.device d)) =
      ({ s with
          gpu_current := (u : ℚ)
          gpu_data := trimAt s.config.history (s.gpu_data ++ [(s.counter, (u : ℚ))]) },
        some e) := by
  unfold updateGpu
  simp only [hng, Bool.not_false, if_true, hu, hm]

theorem updateGpu_temp_error_eq {s : SystemData} {d : GpuCalls} {e : String} {u : Nat}
    {used total : Nat}
    (hng : s.config.no_gpu = false) (hu : d.utilization_rates = Except.ok u)
    (hm : d.memory_info = Except.ok (used, total)) (ht : d.temperature = Except.error e) :
    updateGpu s (some (.device d)) =
      ({ s with
          gpu_current := (u : ℚ)
          gpu_data := trimAt s.config.history (s.gpu_data ++ [(s.counter, (u : ℚ))])
          gpu_memory := ((used : ℚ) / (total : ℚ)) * 100 },
        some e) := by
  unfold updateGpu
  simp only [hng, Bool.not_false, if_true, hu, hm, ht]

theorem updateGpu_util_ok_gpu_current {s : SystemData} {d : GpuCalls} {u : Nat}
    (hng : s.config.no_gpu = false) (hu : d.utilization_rates = Except.ok u) :
    (updateGpu s (some (.device d))).1.gpu_current = (u : ℚ) := by
  unfold updateGpu
  simp only [hng, Bool.not_false, if_true, hu]
  rcases hm : d.memory_info with e2 | p <;>
    rcases ht : d.temperature with e3 | t <;>
      simp only [hm, ht]

theorem updateGpu_gpu_data_cases (s : SystemData) (nv : Option NvmlSession) :
    (updateGpu s nv).1.gpu_data = s.gpu_data ∨
    ∃ u : Nat, (updateGpu s nv).1.gpu_data =
      trimAt s.config.history (s.gpu_data ++ [(s.counter, (u : ℚ))]) := by
  unfold updateGpu
  split
  · cases nv with
    | none => left; rfl
    | some sess =>
      cases sess with
      | noDevice => left; rfl
      | device d =>
        rcases hu : d.utilization_rates with e | u <;> simp only [hu]
        · exact Or.inl trivial
        · rcases hm : d.memory_info with e2 | p <;>
            rcases ht : d.temperature with e3 | t <;>
              simp only [hm, ht]
          · right; exact ⟨u, rfl⟩
          · right; exact ⟨u, rfl⟩
          · right; exact ⟨u, rfl⟩
          · right; exact ⟨u, rfl⟩
  · left; rfl

theorem update_of_gpu_ok {s : SystemData} {sys : SysReading}
    {nvml : Option NvmlSession} {s3 : SystemData}
    (h : updateGpu (updateMemory (updateCpu s sys) sys) nvml = (s3, none)) :
    SystemData.update s sys nvml =
      ({ updateGraphs (updateNetwork s3 sys) with
         counter := (updateGraphs (updateNetwork s3 sys)).counter + 1 }, none) := by
  unfold SystemData.update
  simp only [h]

theorem update_of_gpu_error {s : SystemData} {sys : SysReading}
    {nvml : Option NvmlSession} {s3 : SystemData} {e : String}
    (h : updateGpu (updateMemory (updateCpu s sys) sys) nvml = (s3, some e)) :
    SystemData.update s sys nvml = (s3, some e) := by
  unfold SystemData.update
  simp only [h]

/-! ### List lemmas for the rolling-window characterisation -/

theorem takeLast_of_le {α : Type} {n : Nat} {l : List α} (h : l.length ≤ n) :
    takeLast n l = l := by
  unfold takeLast
  rw [Nat.sub_eq_zero_of_le h, List.drop_zero]

theorem takeLast_length_le {α : Type} (n : Nat) (l : List α) :
    (takeLast n l).length ≤ n := by
  unfold takeLast
  rw [List.length_drop]
  omega

theorem takeLast_append_of_le {α : Type} {n : Nat} {l₁ l₂ : List α} (h : n ≤ l₂.length) :
    takeLast n (l₁ ++ l₂) = takeLast n l₂ := by
  unfold takeLast
  rw [List.length_append, List.drop_append_eq_append_drop,
    List.drop_eq_nil_of_le (by omega), List.nil_append]
  congr 1
  omega

theorem trimAt_takeLast_append {H : Nat} (hH : 1 ≤ H) (pre : List (ℚ × ℚ)) (x : ℚ × ℚ) :
    trimAt H (takeLast H pre ++ [x]) = takeLast H (pre ++ [x]) := by
  unfold trimAt takeLast
  rcases Nat.lt_or_ge pre.length H with hlt | hge
  · rw [Nat.sub_eq_zero_of_le hlt.le, List.drop_zero]
    rw [if_neg (by rw [List.length_append, List.length_singleton]; omega)]
    rw [List.length_append, List.length_singleton,
      Nat.sub_eq_zero_of_le (by omega), List.drop_zero]
  · have hlen : (pre.drop (pre.length - H)).length = H := by
      rw [List.length_drop]; omega
    rw [if_pos (by rw [List.length_append, hlen, List.length_singleton]; omega)]
    rw [List.drop_append_eq_append_drop, hlen, Nat.sub_eq_zero_of_le hH, List.drop_zero,
      List.drop_drop]
    rw [List.length_append, List.length_singleton, List.drop_append_eq_append_drop,
      Nat.sub_eq_zero_of_le (show pre.length + 1 - H ≤ pre.length by omega), List.drop_zero]
    have hidx : pre.length - H + 1 = pre.length + 1 - H := by omega
    rw [hidx]

theorem pushSeq_data {H : Nat} (hH : 1 ≤ H) {k : ChartKind} (inputs : List SystemData) :
    ∀ (g : Graph) (pre : List (ℚ × ℚ)),
      (∀ d ∈ inputs, d.config.history = H) → g.graph_type = k →
      g.data = takeLast H pre →
      (pushSeq g inputs).data =
        takeLast H (pre ++ inputs.map (fun d => (d.counter, chartValue k d))) := by
  induction inputs with
  | nil =>
    intro g pre _ _ hdata
    simpa [pushSeq] using hdata
  | cons d rest ih =>
    intro g pre hh hk hdata
    have hstep : (Graph.update g d).data =
        takeLast H (pre ++ [(d.counter, chartValue k d)]) := by
      rw [Graph.update_data_eq, hdata, hh d (by simp), hk]
      exact trimAt_takeLast_append hH pre _
    have hrec := ih (Graph.update g d) (pre ++ [(d.counter, chartValue k d)])
      (fun d2 hd2 => hh d2 (by simp [hd2])) (by rw [Graph.update_type_eq, hk]) hstep
    calc (pushSeq g (d :: rest)).data
        = (pushSeq (Graph.update g d) rest).data := rfl
      _ = takeLast H ((pre ++ [(d.counter, chartValue k d)])
            ++ rest.map (fun d2 => (d2.counter, chartValue k d2))) := hrec
      _ = takeLast H (pre ++ (d :: rest).map (fun d2 => (d2.counter, chartValue k d2))) := by
            rw [List.append_assoc, List.map_cons, List.singleton_append]

/-! ### Buffer-invariant lemmas for tick monotonicity -/

theorem bufInv_mono {c : ℚ} {l : List (ℚ × ℚ)} (h : bufInv c l) : bufInv (c + 1) l :=
  ⟨h.1, fun t ht => lt_trans (h.2 t ht) (lt_add_one c)⟩

theorem bufInv_push {c : ℚ} {l : List (ℚ × ℚ)} (H : Nat) (v : ℚ) (h : bufInv c l) :
    bufInv (c + 1) (trimAt H (l ++ [(c, v)])) := by
  obtain ⟨hp, hb⟩ := h
  have hp2 : List.Pairwise (fun a b : ℚ => a < b) ((l ++ [(c, v)]).map Prod.fst) := by
    rw [List.map_append]
    refine List.pairwise_append.mpr ⟨hp, List.pairwise_singleton _ _, ?_⟩
    intro a ha b hb2
    simp only [List.map_cons, List.map_nil, List.mem_singleton] at hb2
    subst hb2
    exact hb a ha
  have hb2 : ∀ t ∈ (l ++ [(c, v)]).map Prod.fst, t < c + 1 := by
    intro t ht
    rw [List.map_append, List.mem_append] at ht
    rcases ht with h1 | h2
    · exact lt_trans (hb t h1) (lt_add_one c)
    · simp only [List.map_cons, List.map_nil, List.mem_singleton] at h2
      rw [h2]
      exact lt_add_one c
  unfold trimAt
  split
  · refine ⟨?_, ?_⟩
    · rw [List.map_drop]
      exact List.Pairwise.sublist (List.drop_sublist 1 _) hp2
    · intro t ht
      rw [List.map_drop] at ht
      exact hb2 t (List.mem_of_mem_drop ht)
  · exact ⟨hp2, hb2⟩

theorem update_mem_current (s : SystemData) (sys : SysReading) (nvml : Option NvmlSession) :
    (SystemData.update s sys nvml).1.mem_current =
      s.mem_current * (7/10)
        + (((sys.used_memory : ℚ) / (sys.total_memory : ℚ)) * 100) * (3/10) := by
  rcases hg : updateGpu (updateMemory (updateCpu s sys) sys) nvml with ⟨s3, err⟩
  have hpres := (updateGpu_preserves (updateMemory (updateCpu s sys) sys) nvml).2.2.2.2.1
  rw [hg] at hpres
  cases err with
  | some e =>
    rw [update_of_gpu_error hg]
    exact hpres.trans (by rw [updateMemory_eq]; rfl)
  | none =>
    rw [update_of_gpu_ok hg]
    calc ({ updateGraphs (updateNetwork s3 sys) with
            counter := (updateGraphs (updateNetwork s3 sys)).counter + 1 }, none).1.mem_current
        = (updateNetwork s3 sys).mem_current := rfl
      _ = s3.mem_current := (updateNetwork_preserves s3 sys).2.2.2.2.2.1
      _ = _ := hpres.trans (by rw [updateMemory_eq]; rfl)

theorem update_cpu_current (s : SystemData) (sys : SysReading) (nvml : Option NvmlSession) :
    (SystemData.update s sys nvml).1.cpu_current = sys.cpu_usage := by
  rcases hg : updateGpu (updateMemory (updateCpu s sys) sys) nvml with ⟨s3, err⟩
  have hpres := (updateGpu_preserves (updateMemory (updateCpu s sys) sys) nvml).2.2.2.1
  rw [hg] at hpres
  cases err with
  | some e =>
    rw [update_of_gpu_error hg]
    exact hpres.trans (by rw [updateMemory_eq]; rfl)
  | none =>
    rw [update_of_gpu_ok hg]
    calc ({ updateGraphs (updateNetwork s3 sys) with
            counter := (updateGraphs (updateNetwork s3 sys)).counter + 1 }, none).1.cpu_current
        = (updateNetwork s3 sys).cpu_current := rfl
      _ = s3.cpu_current := (updateNetwork_preserves s3 sys).2.2.2.2.1
      _ = _ := hpres.trans (by rw [updateMemory_eq]; rfl)

/-! ### Claim theorems -/

/-- C10: whenever total swap is 0, the swap usage percentage is defined as
0.0 with no division performed, in both the swap chart update
(`Graph::update`, via `chartValue`) and the stats panel (`draw_stats`, via
`statsSwapUsagePct`); the division `swap_used / swap_total` is evaluated
only under the guard `swap_total > 0`. -/
theorem c10_swap_zero_guard (d : SystemData) :
    (d.swap_total = 0 →
      chartValue ChartKind.Swap d = 0 ∧ statsSwapUsagePct d = 0) ∧
    (0 < d.swap_total →
      chartValue ChartKind.Swap d = ((d.swap_used : ℚ) / (d.swap_total : ℚ)) * 100 ∧
      statsSwapUsagePct d = ((d.swap_used : ℚ) / (d.swap_total : ℚ)) * 100) := by
  constructor
  · intro h
    simp [chartValue, statsSwapUsagePct, h]
  · intro h
    constructor
    · unfold chartValue
      rw [if_pos h]
    · unfold statsSwapUsagePct
      rw [if_pos h]

/-- Witness for C10 at the fresh state, whose swap total is 0. -/
theorem c10_swap_zero_guard_witness :
    chartValue ChartKind.Swap exData0 = 0 ∧ statsSwapUsagePct exData0 = 0 :=
  (c10_swap_zero_guard exData0).1 rfl

/-- C3: the per-tick network deltas are derived from the cumulative totals
with saturating subtraction (truncated subtraction on `ℕ`, exactly `u64`
`saturating_sub`): whenever the new total is smaller than the previous
total the delta is exactly 0, never negative or wrapped; concretely,
cumulative totals 100 then 80 on consecutive ticks give delta 0. -/
theorem c3_saturating_network_delta :
    (∀ (s : SystemData) (sys : SysReading), s.config.no_network = false →
      ((updateNetwork s sys).rx_bytes =
          sys.networks.foldl (fun acc i => acc + i.received) 0 - s.rx_bytes_total ∧
       (updateNetwork s sys).tx_bytes =
          sys.networks.foldl (fun acc i => acc + i.transmitted) 0 - s.tx_bytes_total ∧
       (sys.networks.foldl (fun acc i => acc + i.received) 0 < s.rx_bytes_total →
          (updateNetwork s sys).rx_bytes = 0) ∧
       (sys.networks.foldl (fun acc i => acc + i.transmitted) 0 < s.tx_bytes_total →
          (updateNetwork s sys).tx_bytes = 0)))
    ∧ (updateNetwork (updateNetwork exData0 exReading100) exReading80).rx_bytes = 0
    ∧ (updateNetwork (updateNetwork exData0 exReading100) exReading80).tx_bytes = 0 := by
  refine ⟨?_, by decide, by decide⟩
  intro s sys h
  have hrec : updateNetwork s sys = { s with
      networks := sys.networks
      rx_bytes := sys.networks.foldl (fun acc i => acc + i.received) 0 - s.rx_bytes_total
      tx_bytes := sys.networks.foldl (fun acc i => acc + i.transmitted) 0 - s.tx_bytes_total
      rx_bytes_total := sys.networks.foldl (fun acc i => acc + i.received) 0
      tx_bytes_total := sys.networks.foldl (fun acc i => acc + i.transmitted) 0 } := by
    unfold updateNetwork
    rw [h]
    rfl
  rw [hrec]
  exact ⟨rfl, rfl, fun hlt => Nat.sub_eq_zero_of_le hlt.le,
    fun hlt => Nat.sub_eq_zero_of_le hlt.le⟩

/-- Witness for C3: a decrease from total 100 to total 80 yields delta 0,
by the general saturation clause. -/
theorem c3_saturating_network_delta_witness :
    (updateNetwork (updateNetwork exData0 exReading100) exReading80).rx_bytes = 0 :=
  ((c3_saturating_network_delta.1 (updateNetwork exData0 exReading100) exReading80
    rfl).2.2.1) (by decide)

/-- C4: every tick stores
`mem_current = previous * (1 - 0.3) + raw * 0.3` where raw is the
used-memory percentage of the tick, stores the CPU utilization raw, and
stores the GPU utilization raw whenever its read succeeds; concretely,
previous 50 and raw 80 yield 59. -/
theorem c4_smoothing_policy :
    (∀ (s : SystemData) (sys : SysReading) (nvml : Option NvmlSession),
      (SystemData.update s sys nvml).1.mem_current =
        s.mem_current * (1 - 3/10)
          + (((sys.used_memory : ℚ) / (sys.total_memory : ℚ)) * 100) * (3/10) ∧
      (SystemData.update s sys nvml).1.cpu_current = sys.cpu_usage)
    ∧ (∀ (s : SystemData) (sys : SysReading) (d : GpuCalls) (u : Nat),
        s.config.no_gpu = false → d.utilization_rates = Except.ok u →
        (SystemData.update s sys (some (.device d))).1.gpu_current = (u : ℚ))
    ∧ (∀ (s : SystemData) (sys : SysReading) (nvml : Option NvmlSession),
        s.mem_current = 50 →
        ((sys.used_memory : ℚ) / (sys.total_memory : ℚ)) * 100 = 80 →
        (SystemData.update s sys nvml).1.mem_current = 59) := by
  refine ⟨fun s sys nvml => ⟨?_, update_cpu_current s sys nvml⟩, ?_, ?_⟩
  · rw [update_mem_current]
    norm_num
  · intro s sys d u hng hu
    rcases hg : updateGpu (updateMemory (updateCpu s sys) sys) (some (.device d)) with ⟨s3, err⟩
    have hval := updateGpu_util_ok_gpu_current
      (s := updateMemory (updateCpu s sys) sys) (d := d) hng hu
    rw [hg] at hval
    cases err with
    | some e =>
      rw [update_of_gpu_error hg]
      exact hval
    | none =>
      rw [update_of_gpu_ok hg]
      have h1 : (updateNetwork s3 sys).gpu_current = s3.gpu_current :=
        (updateNetwork_preserves s3 sys).2.2.2.2.2.2.1
      exact h1.trans hval
  · intro s sys nvml h50 h80
    rw [update_mem_current, h50, h80]
    norm_num

/-- Witness for C4: previous smoothed memory 50 with raw 80 gives 59, and a
successful GPU read stores the raw 42%. -/
theorem c4_smoothing_policy_witness :
    (SystemData.update exData50 exReading none).1.mem_current = 59 ∧
    (SystemData.update exData0 exReading (some (.device exGpuOk))).1.gpu_current
      = ((42 : Nat) : ℚ) :=
  ⟨c4_smoothing_policy.2.2 exData50 exReading none rfl (by norm_num [exReading]),
   c4_smoothing_policy.2.1 exData0 exReading exGpuOk 42 rfl rfl⟩

/-- C5 counterexample: the claim says the first tick seeds the smoothed
memory value with the raw reading; in the code `SystemData::new` seeds
`mem_current` with 0.0 and the first `update` applies the EMA to that zero,
so a raw reading of 80% stores 24, not 80. -/
theorem c5_first_seed_counterexample :
    (SystemData.new (exConfig 100) exInfo).mem_current = 0 ∧
    ((exReading.used_memory : ℚ) / (exReading.total_memory : ℚ)) * 100 = 80 ∧
    (SystemData.update (SystemData.new (exConfig 100) exInfo) exReading none).1.mem_current
      = 24 ∧
    (24 : ℚ) ≠ 80 := by
  refine ⟨rfl, by norm_num [exReading], ?_, by norm_num⟩
  rw [update_mem_current]
  have h0 : (SystemData.new (exConfig 100) exInfo).mem_current = 0 := rfl
  rw [h0]
  norm_num [exReading]

/-- C5 amended: the first sample is not seeded with the raw value;
`SystemData::new` initialises the smoothed memory value to 0 and the first
update applies the EMA to it, so after the first tick the stored value is
`0.3 × raw` — a startup ramp bias is present. -/
theorem c5_first_tick_ramp (cfg : AppConfig) (info : SystemInfo)
    (sys : SysReading) (nvml : Option NvmlSession) :
    (SystemData.new cfg info).mem_current = 0 ∧
    (SystemData.update (SystemData.new cfg info) sys nvml).1.mem_current =
      (((sys.used_memory : ℚ) / (sys.total_memory : ℚ)) * 100) * (3/10) := by
  refine ⟨rfl, ?_⟩
  rw [update_mem_current]
  have h0 : (SystemData.new cfg info).mem_current = 0 := rfl
  rw [h0]
  ring

/-- C7 counterexample: GPU capability probing can abort startup.  When NVML
init and the device lookup succeed but `device.name()` fails, the `?` in
`detect_gpu` propagates the error; `SystemInfo::new` then fails with it,
and in `main` that failure propagates out of `SystemData::new` (line 640)
and terminates the process. -/
theorem c7_probe_abort_counterexample :
    detect_gpu
        { init_ok := true, device_ok := true, name := Except.error "nvml name io error" }
        { vendor := Except.error "unreadable", product_name := Except.error "unreadable" }
      = Except.error "nvml name io error" ∧
    SystemInfo.new exCpuReading (osNameFor true false false)
        { init_ok := true, device_ok := true, name := Except.error "nvml name io error" }
        { vendor := Except.error "unreadable", product_name := Except.error "unreadable" }
      = Except.error "nvml name io error" :=
  ⟨rfl, rfl⟩

/-- C7 amended: when every probe fails at its entry point — NVML init or
the device lookup fails, and the AMD vendor file is unreadable or does not
read (trimmed) `0x1002` — `detect_gpu` returns `Ok (Unknown, "Unknown GPU")`
without aborting, and `SystemInfo::new` succeeds so startup continues.
(A probe that partially succeeds and then fails a follow-up call —
`device.name()` or the product-name read — instead returns an error that
aborts startup, per the counterexample.) -/
theorem c7_probe_fallback (nv : NvmlProbe) (amd : AmdProbe)
    (hnv : nv.init_ok = false ∨ nv.device_ok = false)
    (hamd : ∀ c, amd.vendor = Except.ok c → c.trim ≠ "0x1002") :
    detect_gpu nv amd = Except.ok (GpuType.Unknown, "Unknown GPU") ∧
    ∀ (cpu : CpuInfoReading) (osName : String),
      SystemInfo.new cpu osName nv amd = Except.ok
        { cpu_model := cpu.brand
          cpu_cores := cpu.physical_core_count.getD 0
          cpu_threads := cpu.cpus_len
          gpu_model := "Unknown GPU"
          os_name := osName
          os_version := cpu.long_os_version.getD (cpu.os_version.getD "Unknown") } := by
  have hdet : detect_gpu nv amd = Except.ok (GpuType.Unknown, "Unknown GPU") := by
    unfold detect_gpu
    have hcond : (nv.init_ok && nv.device_ok) = false := by
      rcases hnv with h | h <;> simp [h]
    rw [hcond]
    simp only [Bool.false_eq_true, if_false]
    cases hv : amd.vendor with
    | error e => simp only [hv]
    | ok c =>
      simp only [hv]
      rw [if_neg (hamd c hv)]
  refine ⟨hdet, fun cpu osName => ?_⟩
  unfold SystemInfo.new
  rw [hdet]

/-- Witness for C7 amended: a host with no NVML and an unreadable vendor
file resolves to Unknown GPU. -/
theorem c7_probe_fallback_witness :
    detect_gpu { init_ok := false, device_ok := false, name := Except.error "no nvml" }
        { vendor := Except.error "unreadable", product_name := Except.error "unreadable" }
      = Except.ok (GpuType.Unknown, "Unknown GPU") :=
  (c7_probe_fallback _ _ (Or.inl rfl)
    (fun c hc => absurd hc (by simp))).1

/-- C6 counterexample: with GPU monitoring enabled in the config but NVML
initialisation failing at startup, the session resolves to `None`, yet the
GPU chart is still created by `SystemData::new` and the GPU stats section
is still emitted by `draw_stats` — the view does not report GPU as absent. -/
theorem c6_gpu_absent_counterexample :
    initNvml (exConfig 100) false (Except.error "nvml init failed") = none ∧
    (∃ g ∈ (SystemData.new (exConfig 100) exInfo).graphs,
      g.graph_type = ChartKind.Gpu) ∧
    "GPU" ∈ statsSections
      ((SystemData.update (SystemData.new (exConfig 100) exInfo) exReading
        (initNvml (exConfig 100) false (Except.error "nvml init failed"))).1) := by
  refine ⟨rfl, by decide, by decide⟩

/-- C6 amended: if GPU monitoring is disabled or NVML initialisation fails,
the session is `None` and no tick performs a GPU telemetry call — the GPU
scalars and the GPU buffer are untouched and the tick still completes —
but the view omits the GPU chart and the GPU stats section only when
`no_gpu` was set in the config: the GPU stats section is emitted exactly
when `no_gpu` is unset, regardless of whether the NVML session exists. -/
theorem c6_gpu_capability_gating :
    (∀ (cfg : AppConfig) (mac : Bool) (e : String),
      initNvml cfg mac (Except.error e) = none)
    ∧ (∀ (s : SystemData) (sys : SysReading),
      (SystemData.update s sys none).2 = none ∧
      (SystemData.update s sys none).1.gpu_current = s.gpu_current ∧
      (SystemData.update s sys none).1.gpu_memory = s.gpu_memory ∧
      (SystemData.update s sys none).1.gpu_temp = s.gpu_temp ∧
      (SystemData.update s sys none).1.gpu_data = s.gpu_data)
    ∧ (∀ (cfg : AppConfig) (info : SystemInfo), cfg.no_gpu = true →
      ∀ g ∈ (SystemData.new cfg info).graphs, g.graph_type ≠ ChartKind.Gpu)
    ∧ (∀ d : SystemData, "GPU" ∈ statsSections d ↔ d.config.no_gpu = false) := by
  refine ⟨?_, ?_, ?_, ?_⟩
  · intro cfg mac e
    unfold initNvml
    split <;> rfl
  · intro s sys
    have hupd := update_of_gpu_ok
      (updateGpu_none_eq (updateMemory (updateCpu s sys) sys))
    rw [hupd]
    have hnet := updateNetwork_preserves (updateMemory (updateCpu s sys) sys) sys
    exact ⟨rfl, hnet.2.2.2.2.2.2.1, hnet.2.2.2.2.2.2.2.1, hnet.2.2.2.2.2.2.2.2.1,
      hnet.2.2.1⟩
  · intro cfg info h g hg
    simp only [SystemData.new, h, Bool.not_true] at hg
    simp at hg
    rcases hg with h1 | h1 | h1 <;> (rw [h1]; decide)
  · intro d
    unfold statsSections
    cases h : d.config.no_gpu <;> cases hn : d.config.no_network <;> simp [h, hn]

/-- Witness for C6 amended: with GPU monitoring disabled, the memory chart
created at startup is indeed not a GPU chart. -/
theorem c6_gpu_capability_gating_witness :
    (Graph.new ChartKind.Memory).graph_type ≠ ChartKind.Gpu :=
  c6_gpu_capability_gating.2.2.1 { AppConfig.default with no_gpu := true } exInfo rfl
    (Graph.new ChartKind.Memory) (by decide)

/-- C2 counterexample: a single failing GPU telemetry call
(`utilization_rates` returning an I/O error) is fatal to the tick:
`SystemData::update` returns the error; the network section is skipped —
the 500 received bytes of this tick's reading are never recorded — the
graph buffers are not appended, and the tick counter does not advance. -/
theorem c2_single_failure_counterexample :
    (SystemData.update exData0 exReading nvFail).2 = some "io" ∧
    (SystemData.update exData0 exReading nvFail).1.counter = exData0.counter ∧
    exReading.networks.foldl (fun acc i => acc + i.received) 0 = 500 ∧
    (SystemData.update exData0 exReading nvFail).1.rx_bytes_total = 0 ∧
    (SystemData.update exData0 exReading nvFail).1.graphs = exData0.graphs := by
  exact ⟨by decide, by decide, by decide, by decide, by decide⟩

/-- C2 amended: failure isolation as the code implements it.
(a) An absent device (`device_by_index` fails) leaves the GPU metrics at
their previous values and the tick completes: no error, the CPU buffer is
appended, and the counter advances by exactly 1.
(b)-(d) A failing GPU telemetry call aborts the remainder of the tick
through the `?` early return: `update` returns the error, and the network
totals, the graph buffers and the counter are untouched, while the CPU and
memory sections, which run before the GPU section, have already appended
their samples.  The mutations made before the failing call persist:
(b) a `utilization_rates` failure leaves all GPU scalars and `gpu_data` at
their previous values; (c) a `memory_info` failure has already stored the
fresh utilization and appended `gpu_data`, keeping only `gpu_memory` and
`gpu_temp` at their previous values; (d) a `temperature` failure has
additionally stored the fresh memory percentage, keeping only `gpu_temp`
at its previous value. -/
theorem c2_failure_isolation :
    (∀ (s : SystemData) (sys : SysReading),
      (SystemData.update s sys (some NvmlSession.noDevice)).2 = none ∧
      (SystemData.update s sys (some NvmlSession.noDevice)).1.gpu_current = s.gpu_current ∧
      (SystemData.update s sys (some NvmlSession.noDevice)).1.counter = s.counter + 1 ∧
      (SystemData.update s sys (some NvmlSession.noDevice)).1.cpu_data =
        trimAt 100 (s.cpu_data ++ [(s.counter, sys.cpu_usage)]))
    ∧ (∀ (s : SystemData) (sys : SysReading) (d : GpuCalls) (e : String),
      s.config.no_gpu = false → d.utilization_rates = Except.error e →
      (SystemData.update s sys (some (NvmlSession.device d))).2 = some e ∧
      (SystemData.update s sys (some (NvmlSession.device d))).1.counter = s.counter ∧
      (SystemData.update s sys (some (NvmlSession.device d))).1.graphs = s.graphs ∧
      (SystemData.update s sys (some (NvmlSession.device d))).1.rx_bytes_total
        = s.rx_bytes_total ∧
      (SystemData.update s sys (some (NvmlSession.device d))).1.gpu_current = s.gpu_current ∧
      (SystemData.update s sys (some (NvmlSession.device d))).1.gpu_data = s.gpu_data ∧
      (SystemData.update s sys (some (NvmlSession.device d))).1.gpu_memory = s.gpu_memory ∧
      (SystemData.update s sys (some (NvmlSession.device d))).1.gpu_temp = s.gpu_temp ∧
      (SystemData.update s sys (some (NvmlSession.device d))).1.cpu_data =
        trimAt 100 (s.cpu_data ++ [(s.counter, sys.cpu_usage)]) ∧
      (SystemData.update s sys (some (NvmlSession.device d))).1.memory_data =
        trimAt 100 (s.memory_data ++ [(s.counter,
          s.mem_current * (7/10)
            + (((sys.used_memory : ℚ) / (sys.total_memory : ℚ)) * 100) * (3/10))]))
    ∧ (∀ (s : SystemData) (sys : SysReading) (d : GpuCalls) (e : String) (u : Nat),
      s.config.no_gpu = false → d.utilization_rates = Except.ok u →
      d.memory_info = Except.error e →
      (SystemData.update s sys (some (NvmlSession.device d))).2 = some e ∧
      (SystemData.update s sys (some (NvmlSession.device d))).1.counter = s.counter ∧
      (SystemData.update s sys (some (NvmlSession.device d))).1.graphs = s.graphs ∧
      (SystemData.update s sys (some (NvmlSession.device d))).1.rx_bytes_total
        = s.rx_bytes_total ∧
      (SystemData.update s sys (some (NvmlSession.device d))).1.gpu_current = (u : ℚ) ∧
      (SystemData.update s sys (some (NvmlSession.device d))).1.gpu_data =
        trimAt s.config.history (s.gpu_data ++ [(s.counter, (u : ℚ))]) ∧
      (SystemData.update s sys (some (NvmlSession.device d))).1.gpu_memory = s.gpu_memory ∧
      (SystemData.update s sys (some (NvmlSession.device d))).1.gpu_temp = s.gpu_temp ∧
      (SystemData.update s sys (some (NvmlSession.device d))).1.cpu_data =
        trimAt 100 (s.cpu_data ++ [(s.counter, sys.cpu_usage)]))
    ∧ (∀ (s : SystemData) (sys : SysReading) (d : GpuCalls) (e : String)
        (u used total : Nat),
      s.config.no_gpu = false → d.utilization_rates = Except.ok u →
      d.memory_info = Except.ok (used, total) → d.temperature = Except.error e →
      (SystemData.update s sys (some (NvmlSession.device d))).2 = some e ∧
      (SystemData.update s sys (some (NvmlSession.device d))).1.counter = s.counter ∧
      (SystemData.update s sys (some (NvmlSession.device d))).1.graphs = s.graphs ∧
      (SystemData.update s sys (some (NvmlSession.device d))).1.rx_bytes_total
        = s.rx_bytes_total ∧
      (SystemData.update s sys (some (NvmlSession.device d))).1.gpu_current = (u : ℚ) ∧
      (SystemData.update s sys (some (NvmlSession.device d))).1.gpu_data =
        trimAt s.config.history (s.gpu_data ++ [(s.counter, (u : ℚ))]) ∧
      (SystemData.update s sys (some (NvmlSession.device d))).1.gpu_memory =
        ((used : ℚ) / (total : ℚ)) * 100 ∧
      (SystemData.update s sys (some (NvmlSession.device d))).1.gpu_temp = s.gpu_temp ∧
      (SystemData.update s sys (some (NvmlSession.device d))).1.cpu_data =
        trimAt 100 (s.cpu_data ++ [(s.counter, sys.cpu_usage)])) := by
  refine ⟨?_, ?_, ?_, ?_⟩
  · intro s sys
    have hupd := update_of_gpu_ok
      (updateGpu_noDevice_eq (updateMemory (updateCpu s sys) sys))
    rw [hupd]
    have hnet := updateNetwork_preserves (updateMemory (updateCpu s sys) sys) sys
    refine ⟨rfl, hnet.2.2.2.2.2.2.1, ?_, ?_⟩
    · have hc : (updateGraphs (updateNetwork (updateMemory (updateCpu s sys) sys) sys)).counter
          = s.counter := hnet.2.2.2.1
      show (updateGraphs (updateNetwork (updateMemory (updateCpu s sys) sys) sys)).counter + 1
        = s.counter + 1
      rw [hc]
    · exact hnet.1
  · intro s sys d e hng hu
    have hgg : updateGpu (updateMemory (updateCpu s sys) sys) (some (.device d))
        = (updateMemory (updateCpu s sys) sys, some e) :=
      updateGpu_util_error_eq
        (show (updateMemory (updateCpu s sys) sys).config.no_gpu = false from hng) hu
    rw [update_of_gpu_error hgg]
    exact ⟨rfl, rfl, rfl, rfl, rfl, rfl, rfl, rfl, rfl, rfl⟩
  · intro s sys d e u hng hu hm
    have hgg := updateGpu_mem_error_eq
      (show (updateMemory (updateCpu s sys) sys).config.no_gpu = false from hng) hu hm
    rw [update_of_gpu_error hgg]
    exact ⟨rfl, rfl, rfl, rfl, rfl, rfl, rfl, rfl, rfl⟩
  · intro s sys d e u used total hng hu hm ht
    have hgg := updateGpu_temp_error_eq
      (show (updateMemory (updateCpu s sys) sys).config.no_gpu = false from hng) hu hm ht
    rw [update_of_gpu_error hgg]
    exact ⟨rfl, rfl, rfl, rfl, rfl, rfl, rfl, rfl, rfl⟩

/-- Witness for C2 amended, covering all four cases: a failing utilization
read returns the error; an absent device completes the tick; a failing
memory-info read returns its error with the fresh 42% utilization already
stored; a failing temperature read returns its error. -/
theorem c2_failure_isolation_witness :
    (SystemData.update exData0 exReading (some (NvmlSession.device exGpuFail))).2
      = some "io" ∧
    (SystemData.update exData0 exReading (some NvmlSession.noDevice)).2 = none ∧
    (SystemData.update exData0 exReading (some (NvmlSession.device exGpuMemFail))).2
      = some "mem io" ∧
    (SystemData.update exData0 exReading
      (some (NvmlSession.device exGpuMemFail))).1.gpu_current = ((42 : Nat) : ℚ) ∧
    (SystemData.update exData0 exReading (some (NvmlSession.device exGpuTempFail))).2
      = some "temp io" :=
  ⟨(c2_failure_isolation.2.1 exData0 exReading exGpuFail "io" rfl rfl).1,
   (c2_failure_isolation.1 exData0 exReading).1,
   (c2_failure_isolation.2.2.1 exData0 exReading exGpuMemFail "mem io" 42 rfl rfl rfl).1,
   (c2_failure_isolation.2.2.1 exData0 exReading exGpuMemFail "mem io" 42
     rfl rfl rfl).2.2.2.2.1,
   (c2_failure_isolation.2.2.2 exData0 exReading exGpuTempFail "temp io" 42 1 2
     rfl rfl rfl rfl).1⟩

/-- C1: for every configured history `H ≥ 1` and every sequence of samples
pushed through `Graph::update` under that history, the chart buffer never
exceeds `H` entries, and once at least `H` samples have been pushed it
contains exactly the last `H` pushed samples in insertion order;
concretely, with history 5 and raw CPU values [10,20,30,40,50,60] pushed at
consecutive ticks 1..6, the buffer equals ticks 2..6 with values
[20,30,40,50,60]. -/
theorem c1_rolling_window (H : Nat) (k : ChartKind) (inputs : List SystemData)
    (hH : 1 ≤ H) (hh : ∀ d ∈ inputs, d.config.history = H) :
    ((pushSeq (Graph.new k) inputs).data.length ≤ H ∧
      (H ≤ inputs.length →
        (pushSeq (Graph.new k) inputs).data =
          takeLast H (inputs.map (fun d => (d.counter, chartValue k d))))) ∧
    (pushSeq (Graph.new ChartKind.Cpu) c1Inputs).data =
      [(2, 20), (3, 30), (4, 40), (5, 50), (6, 60)] := by
  have hseed : (Graph.new k).data = takeLast H [((0 : ℚ), (0 : ℚ))] := by
    rw [takeLast_of_le (by simpa using hH)]
    rfl
  have hmain := pushSeq_data hH (k := k) inputs (Graph.new k) [((0 : ℚ), (0 : ℚ))] hh rfl hseed
  refine ⟨⟨?_, ?_⟩, by decide⟩
  · rw [hmain]
    exact takeLast_length_le H _
  · intro hN
    rw [hmain, takeLast_append_of_le (by rwa [List.length_map])]

/-- Witness for C1 at the end-to-end scenario: history 5, six pushes. -/
theorem c1_rolling_window_witness :
    (pushSeq (Graph.new ChartKind.Cpu) c1Inputs).data.length ≤ 5 ∧
    (pushSeq (Graph.new ChartKind.Cpu) c1Inputs).data =
      takeLast 5 (c1Inputs.map (fun d => (d.counter, chartValue ChartKind.Cpu d))) :=
  ⟨((c1_rolling_window 5 ChartKind.Cpu c1Inputs (by decide) (by decide)).1).1,
   ((c1_rolling_window 5 ChartKind.Cpu c1Inputs (by decide) (by decide)).1).2 (by decide)⟩

/-- C8, evaluated at the failing input: with configured history 5 and seven
successful ticks, `cpu_data` and `memory_data` grow to 8 entries — the
source trims them against the hardcoded bound 100 (`main.rs` lines 257,
272), not against the configured history — while every chart buffer is
capped at the configured 5 (`main.rs` line 175). -/
theorem c8_hardcoded_cap_eval :
    (SystemData.new (exConfig 5) exInfo).config.history = 5 ∧
    (iterUpdate exReading none 7 (SystemData.new (exConfig 5) exInfo)).cpu_data.length = 8 ∧
    (iterUpdate exReading none 7 (SystemData.new (exConfig 5) exInfo)).memory_data.length = 8 ∧
    ((iterUpdate exReading none 7 (SystemData.new (exConfig 5) exInfo)).graphs.map
      (fun g => g.data.length)) = [5, 5, 5, 5] ∧
    5 < 8 :=
  ⟨rfl, by decide, by decide, by decide, by decide⟩

/-- C9 counterexample: ticks are not unique across a failing update.  The
first tick pushes `(1, cpu)` into `cpu_data` and then aborts at the GPU
utilization read, so the counter stays at 1; the next, successful, tick
pushes tick 1 again — `cpu_data` then holds ticks `[0, 1, 1]`, neither
unique nor strictly increasing. -/
theorem c9_duplicate_tick_counterexample :
    (SystemData.update exData0 exReading nvFail).2 = some "io" ∧
    (SystemData.update c9AfterFail exReading (some NvmlSession.noDevice)).2 = none ∧
    c9AfterRetry.cpu_data.map Prod.fst = [0, 1, 1] ∧
    ¬ List.Pairwise (fun a b : ℚ => a < b) (c9AfterRetry.cpu_data.map Prod.fst) :=
  ⟨by decide, by decide, by decide, by decide⟩

/-- C9 amended: within every rolling buffer — `cpu_data`, `memory_data`,
`gpu_data` and every chart buffer — ticks are pairwise strictly increasing
in insertion order (hence unique), provided every update in the run
succeeds: the invariant `tickInv` holds for a fresh `SystemData` and is
preserved by every `SystemData::update` call that returns no error.  (When
an update fails partway, the counter is not advanced although `cpu_data`
and `memory_data` were already appended, so the next tick re-uses the same
tick number — see the counterexample.) -/
theorem c9_ticks_strictly_increasing :
    (∀ (cfg : AppConfig) (info : SystemInfo), (SystemData.new cfg info).tickInv)
    ∧ (∀ (s : SystemData) (sys : SysReading) (nvml : Option NvmlSession),
      s.tickInv → (SystemData.update s sys nvml).2 = none →
      (SystemData.update s sys nvml).1.tickInv) := by
  constructor
  · intro cfg info
    have hbuf : bufInv 1 [((0 : ℚ), (0 : ℚ))] := by decide
    refine ⟨hbuf, hbuf, hbuf, ?_⟩
    intro g hg
    cases h : cfg.no_gpu with
    | false =>
      simp [SystemData.new, h] at hg
      rcases hg with rfl | rfl | rfl | rfl <;> exact hbuf
    | true =>
      simp [SystemData.new, h] at hg
      rcases hg with rfl | rfl | rfl <;> exact hbuf
  · intro s sys nvml hinv herr
    unfold SystemData.tickInv at hinv
    obtain ⟨hinv_cpu, hinv_mem, hinv_gpu, hinv_gr⟩ := hinv
    rcases hg : updateGpu (updateMemory (updateCpu s sys) sys) nvml with ⟨s3, err⟩
    cases err with
    | some e =>
      rw [update_of_gpu_error hg] at herr
      exact absurd herr (by simp)
    | none =>
      rw [update_of_gpu_ok hg]
      have hnet := updateNetwork_preserves s3 sys
      have hgpu := updateGpu_preserves (updateMemory (updateCpu s sys) sys) nvml
      rw [hg] at hgpu
      have hgdata := updateGpu_gpu_data_cases (updateMemory (updateCpu s sys) sys) nvml
      rw [hg] at hgdata
      have hcnt3 : s3.counter = s.counter := hgpu.2.2.1
      have hcpu3 : s3.cpu_data = trimAt 100 (s.cpu_data ++ [(s.counter, sys.cpu_usage)]) :=
        hgpu.1
      have hmem3 : s3.memory_data = trimAt 100 (s.memory_data ++ [(s.counter,
          s.mem_current * (7/10)
            + (((sys.used_memory : ℚ) / (sys.total_memory : ℚ)) * 100) * (3/10))]) :=
        hgpu.2.1
      have hgr3 : s3.graphs = s.graphs := hgpu.2.2.2.2.2.2.1
      have hcntF : (updateGraphs (updateNetwork s3 sys)).counter = s.counter :=
        (hnet.2.2.2.1 : (updateNetwork s3 sys).counter = s3.counter).trans hcnt3
      unfold SystemData.tickInv
      refine ⟨?_, ?_, ?_, ?_⟩
      · show bufInv ((updateGraphs (updateNetwork s3 sys)).counter + 1)
          (updateGraphs (updateNetwork s3 sys)).cpu_data
        have hc : (updateGraphs (updateNetwork s3 sys)).cpu_data = s3.cpu_data := hnet.1
        rw [hcntF, hc, hcpu3]
        exact bufInv_push 100 sys.cpu_usage hinv_cpu
      · show bufInv ((updateGraphs (updateNetwork s3 sys)).counter + 1)
          (updateGraphs (updateNetwork s3 sys)).memory_data
        have hc : (updateGraphs (updateNetwork s3 sys)).memory_data = s3.memory_data :=
          hnet.2.1
        rw [hcntF, hc, hmem3]
        exact bufInv_push 100 _ hinv_mem
      · show bufInv ((updateGraphs (updateNetwork s3 sys)).counter + 1)
          (updateGraphs (updateNetwork s3 sys)).gpu_data
        have hc : (updateGraphs (updateNetwork s3 sys)).gpu_data = s3.gpu_data := hnet.2.2.1
        rw [hcntF, hc]
        rcases hgdata with hcase | ⟨u, hcase⟩
        · rw [(show s3.gpu_data = s.gpu_data from hcase)]
          exact bufInv_mono hinv_gpu
        · rw [(show s3.gpu_data =
              trimAt s.config.history (s.gpu_data ++ [(s.counter, (u : ℚ))]) from hcase)]
          exact bufInv_push _ _ hinv_gpu
      · show ∀ g ∈ (updateGraphs (updateNetwork s3 sys)).graphs,
          bufInv ((updateGraphs (updateNetwork s3 sys)).counter + 1) g.data
        intro g' hg'
        rw [updateGraphs_graphs_eq] at hg'
        rw [(hnet.2.2.2.2.2.2.2.2.2.2.1 :
          (updateNetwork s3 sys).graphs = s3.graphs), hgr3] at hg'
        obtain ⟨g, hgmem, rfl⟩ := List.mem_map.mp hg'
        have hudc : (mkUpdateData (updateNetwork s3 sys)).counter = s.counter :=
          (hnet.2.2.2.1 : (updateNetwork s3 sys).counter = s3.counter).trans hcnt3
        rw [hcntF, Graph.update_data_eq, hudc]
        exact bufInv_push _ _ (hinv_gr g hgmem)

/-- Witness for C9 amended at a concrete successful tick from a fresh
state. -/
theorem c9_ticks_strictly_increasing_witness :
    (SystemData.update (SystemData.new (exConfig 5) exInfo) exReading none).1.tickInv :=
  c9_ticks_strictly_increasing.2 (SystemData.new (exConfig 5) exInfo) exReading none
    (by decide) (by decide)
